import Mathlib

/-!
# Verification of `scripts/classify_viirs.py`

A shallow embedding of the VIIRS band-stack clustering script:
raster loading, the band-stack reshape (`transpose('y','x','band')`
followed by `reshape(-1, n_bands)`), KMeans clustering
(`KMeans(n_clusters, random_state=9).fit_predict`), the result reshape
(`reshape(n_x, n_y).T` attached with dims `('x','y')`), the logging
level dictionary and the argparse surface.

NumPy arrays are modelled as extent-annotated index functions; the
reshape and transpose calls become index arithmetic exactly as NumPy
row-major semantics prescribes.  Fallible stages return `Except` over
an inductive of the exception kinds a run can surface.
-/

/-- A 2-D array: extents `d0 × d1` and a total cell function.
Models a NumPy 2-D `ndarray` of shape `(d0, d1)`. -/
structure Arr2 (α : Type) where
  d0 : Nat
  d1 : Nat
  data : Nat → Nat → α

/-- A 3-D array: extents `d0 × d1 × d2` and a total cell function.
Models a NumPy 3-D `ndarray` of shape `(d0, d1, d2)`; for the raster
the axes are `(band, x, y)` with extents `(B, X, Y)` as named at
lines 57-59 of the script. -/
structure Arr3 (α : Type) where
  d0 : Nat
  d1 : Nat
  d2 : Nat
  data : Nat → Nat → Nat → α

/-- `xds.band_data.transpose('y', 'x', 'band')` (line 60): axis
permutation of the `(band, x, y)` raster to `(y, x, band)`. -/
def transpose_yxb {α : Type} (A : Arr3 α) : Arr3 α :=
  ⟨A.d2, A.d1, A.d0, fun y x b => A.data b x y⟩

/-- `.reshape(-1, n_bands)` (line 60): row-major flattening of the
first two axes of a 3-D array, NumPy C-order: flat row `r` decomposes
as `r = i0 * d1 + i1`. -/
def reshape_flat2 {α : Type} (T : Arr3 α) : Arr2 α :=
  ⟨T.d0 * T.d1, T.d2, fun r c => T.data (r / T.d1) (r % T.d1) c⟩

/-- The Band-Stack Reshaper (line 60 in full):
`xds.band_data.transpose('y','x','band').values.reshape(-1, n_bands)`. -/
def band_stack {α : Type} (A : Arr3 α) : Arr2 α :=
  reshape_flat2 (transpose_yxb A)

/-- The row index the Band-Stack Reshaper assigns to grid cell
`(x, y)` of a raster with x-extent `X`: after the transpose the array
has shape `(Y, X, B)`, so row-major flattening puts `(x, y)` at
`y * X + x`. -/
def rowIdx (X x y : Nat) : Nat := y * X + x

/-- `results.reshape(n_x, n_y)` (line 68): row-major reshape of a flat
sequence to shape `(X, Y)`. -/
def reshape2 {α : Type} (v : Nat → α) (X Y : Nat) : Arr2 α :=
  ⟨X, Y, fun i j => v (i * Y + j)⟩

/-- `.T` (line 68): 2-D transpose. -/
def transpose2 {α : Type} (M : Arr2 α) : Arr2 α :=
  ⟨M.d1, M.d0, fun i j => M.data j i⟩

/-- The Result Reshaper (line 68): `results.reshape(n_x, n_y).T`.
Line 71 attaches dims `('x', 'y')` to the result, so `.data x y` of
this array is the cell the script treats as grid position `(x, y)`. -/
def result_reshape {α : Type} (v : Nat → α) (X Y : Nat) : Arr2 α :=
  transpose2 (reshape2 v X Y)

/-- The exception kinds a run of the script can surface. The inductive
also carries the spec's named `DataLoadError` and `ClassificationError`
kinds so that statements about them can be made; the repository itself
defines no exception class (its `except` blocks end in a bare `raise`,
lines 25-27 and 35-37, which re-raises the caught exception unchanged). -/
inductive PyErr where
  | fileNotFoundError
  | valueError
  | keyError
  | dataLoadError
  | classificationError
  deriving DecidableEq, Repr

/-- Rendering of an exception as it appears interpolated into the
f-string log messages. -/
def errMsg : PyErr → String
  | .fileNotFoundError => "FileNotFoundError"
  | .valueError => "ValueError"
  | .keyError => "KeyError"
  | .dataLoadError => "DataLoadError"
  | .classificationError => "ClassificationError"

/-- Squared Euclidean distance in band-space, the metric of
centroid-based clustering (spec section 4.3). -/
def sqDist (p q : List ℚ) : ℚ :=
  (List.zipWith (fun a b => (a - b) * (a - b)) p q).sum

/-- Scan of the remaining centroids keeping the index of the closest
one seen so far (`i` is the index of the head of the remaining list,
`best`/`bestD` the running argmin and its distance). -/
def nearestAux (p : List ℚ) : List (List ℚ) → Nat → Nat → ℚ → Nat
  | [], _, best, _ => best
  | c :: rest, i, best, bestD =>
    if sqDist c p < bestD then nearestAux p rest (i + 1) i (sqDist c p)
    else nearestAux p rest (i + 1) best bestD

/-- Index of the nearest centroid to a point (first minimal index). -/
def nearestIdx (cs : List (List ℚ)) (p : List ℚ) : Nat :=
  match cs with
  | [] => 0
  | c :: rest => nearestAux p rest 1 0 (sqDist c p)

/-- One step of a linear congruential pseudo-random generator. -/
def lcg (s : Nat) : Nat := (s * 1103515245 + 12345) % 2147483648

/-- Iterated generator states from a seed. -/
def lcgIter : Nat → Nat → Nat
  | 0, s => s
  | n + 1, s => lcg (lcgIter n s)

/-- Modelled from the spec: the random centroid initialization inside
`sklearn.cluster.KMeans` (external library, absent from src); spec
section 4.3: "centroids initialized pseudo-randomly", "random
initialization governed by a fixed seed". `K` rows are drawn at
seed-determined indices. -/
def initCentroids (seed K : Nat) (m : List (List ℚ)) : List (List ℚ) :=
  (List.range K).map (fun i => m.getD (lcgIter (i + 1) seed % m.length) [])

/-- Assignment step: each row goes to its nearest centroid. -/
def assign (cs m : List (List ℚ)) : List Nat := m.map (nearestIdx cs)

/-- Componentwise vector sum (band-space). -/
def vecAdd : List ℚ → List ℚ → List ℚ := List.zipWith (· + ·)

/-- Scale a band vector. -/
def vecScale (q : ℚ) (v : List ℚ) : List ℚ := v.map (fun a => q * a)

/-- Update step: each centroid becomes the mean of the rows assigned to
it; a centroid with no assigned rows is kept. -/
def updateCentroids (cs m : List (List ℚ)) : List (List ℚ) :=
  (List.range cs.length).map (fun j =>
    let members := m.filter (fun p => nearestIdx cs p == j)
    if members.isEmpty then cs.getD j []
    else
      vecScale (1 / (members.length : ℚ))
        (members.foldl vecAdd (List.replicate (cs.getD j []).length 0)))

/-- Lloyd iteration: recompute centroids until the assignment is
stable or the iteration budget is exhausted (spec section 4.3:
"iterative centroid recomputation until assignments stabilize or a
maximum iteration count is reached"). -/
def lloydIter : Nat → List (List ℚ) → List (List ℚ) → List (List ℚ)
  | 0, cs, _ => cs
  | fuel + 1, cs, m =>
    let cs2 := updateCentroids cs m
    if assign cs2 m = assign cs m then cs2 else lloydIter fuel cs2 m

/-- Final label list of the clustering: one nearest-centroid label per
row against the converged centroids. -/
def kmeansLabels (seed K : Nat) (m : List (List ℚ)) : List Nat :=
  assign (lloydIter 300 (initCentroids seed K m) m) m

/-- Number of distinct rows of the pixel matrix. -/
def distinctCount (m : List (List ℚ)) : Nat := m.dedup.length

/-- Modelled from the spec: `KMeans(n_clusters=k, random_state=seed).fit_predict(m)`
is an external `sklearn` call absent from src. Spec section 4.3: partitions
rows by iterative centroid refinement from a seeded random initialization and
"fails ... if K exceeds the number of distinct rows or K ≤ 0". The repository
defines no exception class of its own, so the failure surfaces as the
library's `ValueError`. -/
def kmeans_fit_predict (seed : Nat) (k : Int) (m : List (List ℚ)) :
    Except PyErr (List Nat) :=
  if k ≤ 0 ∨ (distinctCount m : Int) < k then .error .valueError
  else .ok (kmeansLabels seed k.toNat m)

/-- `classify_data` (lines 29-37): runs
`KMeans(n_clusters=n_clusters, random_state=9).fit_predict(flat_data)`;
on success returns the labels, on failure the bare `raise` re-raises
the caught exception unchanged. -/
def classify_data (flat_data : List (List ℚ)) (n_clusters : Int) :
    Except PyErr (List Nat) :=
  match kmeans_fit_predict 9 n_clusters flat_data with
  | .ok labels => .ok labels
  | .error e => .error e

/-- The log lines `classify_data` emits (lines 33 and 36). -/
def classify_log (flat_data : List (List ℚ)) (n_clusters : Int) : List String :=
  match kmeans_fit_predict 9 n_clusters flat_data with
  | .ok _ => ["INFO Data classified successfully."]
  | .error e => ["ERROR Error during classification: " ++ errMsg e]

/-- Modelled from the spec: `xr.open_dataset(file_path, engine='rasterio')`
(line 22) is an external `xarray`/`rasterio` call absent from src. Spec
section 4.1: loading "fails ... when the path does not exist". The
filesystem is a parameter mapping paths to rasters; a missing path
surfaces as the library's file-not-found error (the repository defines
no `DataLoadError` class). -/
def open_dataset (fs : String → Option (Arr3 ℚ)) (path : String) :
    Except PyErr (Arr3 ℚ) :=
  match fs path with
  | some d => .ok d
  | none => .error .fileNotFoundError

/-- `load_data` (lines 20-27): opens the dataset; on failure logs and
bare-`raise`s the caught exception unchanged. -/
def load_data (fs : String → Option (Arr3 ℚ)) (path : String) :
    Except PyErr (Arr3 ℚ) :=
  match open_dataset fs path with
  | .ok d => .ok d
  | .error e => .error e

/-- The log lines `load_data` emits (lines 23 and 26): the error line
carries the path and the underlying cause. -/
def load_log (fs : String → Option (Arr3 ℚ)) (path : String) : List String :=
  match open_dataset fs path with
  | .ok _ => ["INFO Data loaded successfully from " ++ path]
  | .error e => ["ERROR Error loading data from " ++ path ++ ": " ++ errMsg e]

/-- The four `logging` module levels the script's dictionary mentions
(lines 10-15). -/
inductive LogLevel where
  | error
  | warning
  | info
  | debug
  deriving DecidableEq, Repr

/-- `setup_logging` (lines 8-18): the dictionary
`{0: ERROR, 1: WARNING, 2: INFO, 3: DEBUG}[log_level]` selects the
level; a count outside the four keys has no entry, which in Python is
a `KeyError` (modelled as `none`). -/
def setup_logging : Nat → Option LogLevel
  | 0 => some .error
  | 1 => some .warning
  | 2 => some .info
  | 3 => some .debug
  | _ => none

/-- The parsed command line (lines 42-46). -/
structure Args where
  viirs_file : String
  n_clusters : Int
  v : Nat

/-- `parser.parse_args()` (lines 42-46): the positional path, the
`--n_clusters` option with `default=5`, and the counted `-v` flag with
`default=0`; `nc` is `none` when `--n_clusters` is omitted. -/
def parse_args (path : String) (nc : Option Int) (vcount : Nat) : Args :=
  ⟨path, nc.getD 5, vcount⟩

/-- Rows of a 2-D array as a list of lists (the view `fit_predict`
takes of the pixel matrix). -/
def rowsOf (M : Arr2 ℚ) : List (List ℚ) :=
  (List.range M.d0).map (fun r => (List.range M.d1).map (fun c => M.data r c))

/-- `main` (lines 40-79) without the final plotting call: parse, set up
logging, load, band-stack reshape, classify, result reshape. The
returned grid is the `clusters` array of line 71 (dims `('x','y')`);
any raised exception propagates as `.error`. A verbosity count with no
dictionary entry aborts inside `setup_logging` before any pipeline
stage runs. -/
def main_model (fs : String → Option (Arr3 ℚ)) (path : String)
    (nc : Option Int) (vcount : Nat) : Except PyErr (Arr2 Nat) :=
  let args := parse_args path nc vcount
  match setup_logging args.v with
  | none => .error .keyError
  | some _ =>
    match load_data fs args.viirs_file with
    | .error e => .error e
    | .ok xds =>
      let n_x := xds.d1
      let n_y := xds.d2
      let data := band_stack xds
      match classify_data (rowsOf data) args.n_clusters with
      | .error e => .error e
      | .ok results => .ok (result_reshape (fun r => results.getD r 0) n_x n_y)

/-- A concrete non-square test raster: 1 band, extents X = 2, Y = 3,
cell value `x + 10 y` (so every cell value encodes its coordinates). -/
def rasterA : Arr3 Int := ⟨1, 2, 3, fun _ x y => (x : Int) + 10 * (y : Int)⟩

/-- A concrete square test raster: 2 bands on a 2 x 2 grid. -/
def rasterSq : Arr3 Int := ⟨2, 2, 2, fun b x y => (b : Int) + 2 * (x : Int) + 4 * (y : Int)⟩

/-- A filesystem with no files (every path missing). -/
def emptyFS : String → Option (Arr3 ℚ) := fun _ => none

theorem band_stack_d0 {α : Type} (A : Arr3 α) :
    (band_stack A).d0 = A.d2 * A.d1 := rfl

theorem band_stack_d1 {α : Type} (A : Arr3 α) :
    (band_stack A).d1 = A.d0 := rfl

theorem band_stack_data {α : Type} (A : Arr3 α) (r b : Nat) :
    (band_stack A).data r b = A.data b (r % A.d1) (r / A.d1) := rfl

theorem result_reshape_data {α : Type} (v : Nat → α) (X Y i j : Nat) :
    (result_reshape v X Y).data i j = v (j * Y + i) := rfl

theorem rowIdx_lt {X Y x y : Nat} (hx : x < X) (hy : y < Y) :
    rowIdx X x y < X * Y := by
  calc y * X + x < y * X + X := Nat.add_lt_add_left hx _
    _ = (y + 1) * X := by ring
    _ ≤ Y * X := Nat.mul_le_mul_right X (Nat.succ_le_of_lt hy)
    _ = X * Y := Nat.mul_comm Y X

theorem rowIdx_mod {X x : Nat} (y : Nat) (hx : x < X) :
    rowIdx X x y % X = x := by
  unfold rowIdx
  rw [Nat.add_comm, Nat.mul_comm, Nat.add_mul_mod_self_left, Nat.mod_eq_of_lt hx]

theorem rowIdx_div {X x : Nat} (y : Nat) (hx : x < X) :
    rowIdx X x y / X = y := by
  unfold rowIdx
  have hX : 0 < X := Nat.lt_of_le_of_lt (Nat.zero_le x) hx
  rw [Nat.add_comm, Nat.mul_comm, Nat.add_mul_div_left x y hX,
    Nat.div_eq_of_lt hx, Nat.zero_add]

theorem band_stack_at_rowIdx {α : Type} (A : Arr3 α) {x y : Nat}
    (hx : x < A.d1) (b : Nat) :
    (band_stack A).data (rowIdx A.d1 x y) b = A.data b x y := by
  rw [band_stack_data, rowIdx_mod y hx, rowIdx_div y hx]

theorem nearestAux_lt (p : List ℚ) :
    ∀ (rest : List (List ℚ)) (i best : Nat) (d : ℚ),
      best < i → nearestAux p rest i best d < i + rest.length := by
  intro rest
  induction rest with
  | nil => intro i best d h; simpa using h
  | cons c tail ih =>
    intro i best d h
    simp only [nearestAux, List.length_cons]
    split
    · have := ih (i + 1) i (sqDist c p) (Nat.lt_succ_self i)
      omega
    · have := ih (i + 1) best d (Nat.lt_succ_of_lt h)
      omega

theorem nearestIdx_lt (cs : List (List ℚ)) (p : List ℚ) (h : cs ≠ []) :
    nearestIdx cs p < cs.length := by
  cases cs with
  | nil => exact absurd rfl h
  | cons c rest =>
    have := nearestAux_lt p rest 1 0 (sqDist c p) Nat.one_pos
    simp only [nearestIdx, List.length_cons]
    omega

theorem nearestIdx_singleton (c p : List ℚ) : nearestIdx [c] p = 0 := rfl

theorem updateCentroids_length (cs m : List (List ℚ)) :
    (updateCentroids cs m).length = cs.length := by
  simp [updateCentroids]

theorem lloydIter_length :
    ∀ (fuel : Nat) (cs m : List (List ℚ)),
      (lloydIter fuel cs m).length = cs.length := by
  intro fuel
  induction fuel with
  | zero => intro cs m; rfl
  | succ n ih =>
    intro cs m
    simp only [lloydIter]
    split
    · exact updateCentroids_length cs m
    · rw [ih (updateCentroids cs m) m, updateCentroids_length]

theorem initCentroids_length (seed K : Nat) (m : List (List ℚ)) :
    (initCentroids seed K m).length = K := by
  simp [initCentroids]

theorem kmeansCentroids_length (seed K : Nat) (m : List (List ℚ)) :
    (lloydIter 300 (initCentroids seed K m) m).length = K := by
  rw [lloydIter_length, initCentroids_length]

theorem distinctCount_pos (m : List (List ℚ)) (h : m ≠ []) :
    0 < distinctCount m := by
  unfold distinctCount
  cases m with
  | nil => exact absurd rfl h
  | cons a t =>
    have ha : a ∈ (a :: t).dedup := List.mem_dedup.mpr (List.mem_cons_self a t)
    exact List.length_pos.mpr (List.ne_nil_of_mem ha)

/-- C2. For every 3-D raster with extents (band = B, x = X, y = Y) the
Band-Stack Reshaper yields a 2-D matrix of shape (X·Y, B); the row
index `rowIdx X x y = y·X + x` it assigns to grid cell (x, y) is a
bijection between the grid rectangle and the row range, and every cell
value is carried to its row unaltered. -/
theorem C2_band_stack_bijection {α : Type} (A : Arr3 α) :
    ((band_stack A).d0 = A.d1 * A.d2 ∧ (band_stack A).d1 = A.d0)
    ∧ (∀ x y, x < A.d1 → y < A.d2 → rowIdx A.d1 x y < A.d1 * A.d2)
    ∧ (∀ x y x2 y2, x < A.d1 → x2 < A.d1 →
        rowIdx A.d1 x y = rowIdx A.d1 x2 y2 → x = x2 ∧ y = y2)
    ∧ (∀ r, r < A.d1 * A.d2 →
        ∃ x y, x < A.d1 ∧ y < A.d2 ∧ rowIdx A.d1 x y = r)
    ∧ (∀ b x y, x < A.d1 →
        (band_stack A).data (rowIdx A.d1 x y) b = A.data b x y) := by
  refine ⟨⟨by rw [band_stack_d0, Nat.mul_comm], band_stack_d1 A⟩, ?_, ?_, ?_, ?_⟩
  · intro x y hx hy
    exact rowIdx_lt hx hy
  · intro x y x2 y2 hx hx2 h
    constructor
    · calc x = rowIdx A.d1 x y % A.d1 := (rowIdx_mod y hx).symm
        _ = rowIdx A.d1 x2 y2 % A.d1 := by rw [h]
        _ = x2 := rowIdx_mod y2 hx2
    · calc y = rowIdx A.d1 x y / A.d1 := (rowIdx_div y hx).symm
        _ = rowIdx A.d1 x2 y2 / A.d1 := by rw [h]
        _ = y2 := rowIdx_div y2 hx2
  · intro r hr
    have hX : 0 < A.d1 := by
      rcases Nat.eq_zero_or_pos A.d1 with h0 | h
      · rw [h0] at hr; omega
      · exact h
    refine ⟨r % A.d1, r / A.d1, Nat.mod_lt r hX, ?_, ?_⟩
    · rw [Nat.div_lt_iff_lt_mul hX, Nat.mul_comm]
      exact hr
    · unfold rowIdx
      rw [Nat.mul_comm, Nat.div_add_mod]
  · intro b x y hx
    exact band_stack_at_rowIdx A hx b

/-- Witness for C2 at the concrete raster `rasterA` (X = 2, Y = 3):
cell (1, 2) lands in row `rowIdx 2 1 2 = 5` with its value intact. -/
theorem C2_band_stack_bijection_witness :
    (1 : Nat) < rasterA.d1 ∧
    (band_stack rasterA).data (rowIdx rasterA.d1 1 2) 0 = rasterA.data 0 1 2 :=
  ⟨by decide, (C2_band_stack_bijection rasterA).2.2.2.2 0 1 2 (by decide)⟩

/-- C1 counterexample. On the non-square raster `rasterA`
(B = 1, X = 2, Y = 3) the Band-Stack Reshaper followed by the Result
Reshaper does NOT return every value to its original position: the
script reads grid cell (x = 0, y = 1) of the reconstructed array
(line 71 attaches dims `('x','y')`), and finds the value of cell
(1, 1) instead — 11 where the original holds 10. -/
theorem C1_roundtrip_counterexample :
    (result_reshape (fun r => (band_stack rasterA).data r 0)
        rasterA.d1 rasterA.d2).data 0 1 ≠ rasterA.data 0 0 1 := by
  decide

/-- C1 (amended): for a SQUARE raster (X = Y) the round trip is exact:
band-stacking and then applying the Result Reshaper returns every cell
value to its original (x, y) position, in every band. -/
theorem C1_roundtrip_square {α : Type} (A : Arr3 α) (hsq : A.d1 = A.d2)
    (b x y : Nat) (hx : x < A.d1) :
    (result_reshape (fun r => (band_stack A).data r b)
        A.d1 A.d2).data x y = A.data b x y := by
  rw [result_reshape_data]
  have : y * A.d2 + x = rowIdx A.d1 x y := by rw [rowIdx, hsq]
  rw [this, band_stack_at_rowIdx A hx b]

/-- Witness for C1 (amended) at the square raster `rasterSq`:
cell (1, 0) of band 1 survives the round trip. -/
theorem C1_roundtrip_square_witness :
    rasterSq.d1 = rasterSq.d2 ∧
    (result_reshape (fun r => (band_stack rasterSq).data r 1)
        rasterSq.d1 rasterSq.d2).data 1 0 = rasterSq.data 1 1 0 :=
  ⟨rfl, C1_roundtrip_square rasterSq rfl 1 1 0 (by decide)⟩

/-- C3. The Result Reshaper reshapes the flat sequence to shape
(X, Y), then transposes to shape (Y, X); it is a total function, and
for a flat input of length X·Y every access it performs is in range
(index `j·Y + i < X·Y`), so the only way it can go wrong is a length
mismatch of the input. -/
theorem C3_result_reshape_contract {α : Type} (v : Nat → α) (X Y : Nat) :
    ((reshape2 v X Y).d0 = X ∧ (reshape2 v X Y).d1 = Y)
    ∧ result_reshape v X Y = transpose2 (reshape2 v X Y)
    ∧ ((result_reshape v X Y).d0 = Y ∧ (result_reshape v X Y).d1 = X)
    ∧ (∀ i j, i < Y → j < X →
        (result_reshape v X Y).data i j = v (j * Y + i) ∧ j * Y + i < X * Y) := by
  refine ⟨⟨rfl, rfl⟩, rfl, ⟨rfl, rfl⟩, ?_⟩
  intro i j hi hj
  refine ⟨rfl, ?_⟩
  have := rowIdx_lt hi hj
  rw [rowIdx] at this
  rw [Nat.mul_comm X Y]
  exact this

/-- Witness for C3 with the identity flat sequence, X = 2, Y = 3:
output cell (1, 1) reads flat index 4, which is inside `X·Y = 6`. -/
theorem C3_result_reshape_contract_witness :
    (result_reshape (fun r : Nat => r) 2 3).data 1 1 = 1 * 3 + 1 ∧
    1 * 3 + 1 < 2 * 3 :=
  (C3_result_reshape_contract (fun r : Nat => r) 2 3).2.2.2 1 1
    (by decide) (by decide)

/-- C4. Determinism: `classify_data` fixes the seed (`random_state=9`,
line 31) and depends on nothing but the pixel matrix and the cluster
count, so two runs on the same matrix with the same K produce
identical label assignments. -/
theorem C4_classify_deterministic (m1 m2 : List (List ℚ)) (k1 k2 : Int)
    (hm : m1 = m2) (hk : k1 = k2) :
    classify_data m1 k1 = classify_data m2 k2 := by
  rw [hm, hk]

/-- Witness for C4: two runs on a concrete 2-row matrix with K = 2. -/
theorem C4_classify_deterministic_witness :
    classify_data [[(0 : ℚ)], [(1 : ℚ)]] 2 = classify_data [[(0 : ℚ)], [(1 : ℚ)]] 2 :=
  C4_classify_deterministic [[(0 : ℚ)], [(1 : ℚ)]] [[(0 : ℚ)], [(1 : ℚ)]] 2 2 rfl rfl

/-- C5. Degenerate clustering: on any non-empty pixel matrix,
`classify_data` with K = 1 succeeds and gives every row the same label
(all labels are 0). -/
theorem C5_k1_single_label (m : List (List ℚ)) (hm : m ≠ []) :
    ∃ labels, classify_data m 1 = .ok labels ∧
      labels.length = m.length ∧ ∀ l ∈ labels, l = 0 := by
  have hd := distinctCount_pos m hm
  have hcond : ¬((1 : Int) ≤ 0 ∨ (distinctCount m : Int) < 1) := by
    rintro (h | h) <;> omega
  unfold classify_data kmeans_fit_predict
  rw [if_neg hcond]
  refine ⟨kmeansLabels 9 (Int.toNat 1) m, rfl, ?_, ?_⟩
  · unfold kmeansLabels assign
    exact List.length_map m (nearestIdx (lloydIter 300 (initCentroids 9 (Int.toNat 1) m) m))
  · intro l hl
    unfold kmeansLabels assign at hl
    rw [List.mem_map] at hl
    obtain ⟨p, hp, rfl⟩ := hl
    have hlen : (lloydIter 300 (initCentroids 9 (Int.toNat 1) m) m).length = 1 :=
      kmeansCentroids_length 9 (Int.toNat 1) m
    obtain ⟨c, hc⟩ := List.length_eq_one.mp hlen
    rw [hc]
    exact nearestIdx_singleton c p

/-- Witness for C5: the concrete two-row matrix `[[0],[1]]` is
non-empty and with K = 1 both rows receive label 0. -/
theorem C5_k1_single_label_witness :
    ∃ labels, classify_data [[(0 : ℚ)], [(1 : ℚ)]] 1 = .ok labels ∧
      labels.length = 2 ∧ ∀ l ∈ labels, l = 0 :=
  C5_k1_single_label [[(0 : ℚ)], [(1 : ℚ)]] (by simp)

/-- C6. Label consistency: on any non-empty pixel matrix, with K equal
to the number of distinct rows, `classify_data` succeeds, every row
receives a label below K, and identical input rows receive identical
labels. -/
theorem C6_label_consistency (m : List (List ℚ)) (hm : m ≠ []) :
    ∃ labels, classify_data m (distinctCount m : Int) = .ok labels ∧
      labels.length = m.length ∧
      (∀ l ∈ labels, l < distinctCount m) ∧
      (∀ i j, m.get? i = m.get? j → labels.get? i = labels.get? j) := by
  have hd := distinctCount_pos m hm
  have hcond : ¬((distinctCount m : Int) ≤ 0 ∨
      (distinctCount m : Int) < (distinctCount m : Int)) := by
    rintro (h | h) <;> omega
  unfold classify_data kmeans_fit_predict
  rw [if_neg hcond]
  have htn : (distinctCount m : Int).toNat = distinctCount m := Int.toNat_natCast _
  refine ⟨kmeansLabels 9 (distinctCount m : Int).toNat m, rfl, ?_, ?_, ?_⟩
  · unfold kmeansLabels assign
    exact List.length_map m _
  · intro l hl
    unfold kmeansLabels assign at hl
    rw [List.mem_map] at hl
    obtain ⟨p, hp, rfl⟩ := hl
    have hlen : (lloydIter 300 (initCentroids 9 (distinctCount m : Int).toNat m) m).length
        = distinctCount m := by
      rw [kmeansCentroids_length, htn]
    have hne : lloydIter 300 (initCentroids 9 (distinctCount m : Int).toNat m) m ≠ [] := by
      apply List.ne_nil_of_length_pos
      rw [hlen]
      exact hd
    have := nearestIdx_lt _ p hne
    rw [hlen] at this
    exact this
  · intro i j hij
    unfold kmeansLabels assign
    rw [List.get?_map, List.get?_map, hij]

/-- Witness for C6: the concrete matrix `[[0],[1],[0]]` has 2 distinct
rows; with K = 2 every row gets a label below 2 and the equal rows 0
and 2 get equal labels. -/
theorem C6_label_consistency_witness :
    ∃ labels, classify_data [[(0 : ℚ)], [(1 : ℚ)], [(0 : ℚ)]]
        (distinctCount [[(0 : ℚ)], [(1 : ℚ)], [(0 : ℚ)]] : Int) = .ok labels ∧
      labels.length = 3 ∧
      (∀ l ∈ labels, l < distinctCount [[(0 : ℚ)], [(1 : ℚ)], [(0 : ℚ)]]) ∧
      (∀ i j, [[(0 : ℚ)], [(1 : ℚ)], [(0 : ℚ)]].get? i =
          [[(0 : ℚ)], [(1 : ℚ)], [(0 : ℚ)]].get? j →
        labels.get? i = labels.get? j) :=
  C6_label_consistency [[(0 : ℚ)], [(1 : ℚ)], [(0 : ℚ)]] (by simp)

/-- C7 counterexample. With the one-row matrix `[[0]]` and K = 0 the
clusterer fails, but the exception surfaced is the library's
`ValueError`, re-raised unchanged by the bare `raise` of line 37 — it
is not a `ClassificationError`, a class the repository never defines. -/
theorem C7_counterexample :
    classify_data [[(0 : ℚ)]] 0 = Except.error PyErr.valueError ∧
    classify_data [[(0 : ℚ)]] 0 ≠ Except.error PyErr.classificationError := by
  constructor
  · rfl
  · intro h
    rw [show classify_data [[(0 : ℚ)]] 0 = Except.error PyErr.valueError from rfl] at h
    rw [Except.error.injEq] at h
    exact PyErr.noConfusion h

/-- C7 (amended). `classify_data` fails exactly when K ≤ 0 or K
exceeds the number of distinct rows; the failure is the underlying
`ValueError` re-raised unchanged (never a `ClassificationError`, which
the code does not define), the failure is logged, and nothing is
returned on failure while a full label list is returned on success
(all-or-nothing). -/
theorem C7_classify_failure (m : List (List ℚ)) (k : Int) :
    (classify_data m k = .error .valueError ↔
      (k ≤ 0 ∨ (distinctCount m : Int) < k))
    ∧ (∀ e, classify_data m k = .error e → e = .valueError)
    ∧ ((k ≤ 0 ∨ (distinctCount m : Int) < k) →
        classify_log m k = ["ERROR Error during classification: ValueError"])
    ∧ (¬(k ≤ 0 ∨ (distinctCount m : Int) < k) →
        ∃ ls, classify_data m k = .ok ls ∧ ls.length = m.length) := by
  unfold classify_data classify_log kmeans_fit_predict
  by_cases hc : k ≤ 0 ∨ (distinctCount m : Int) < k
  · rw [if_pos hc]
    refine ⟨⟨fun _ => hc, fun _ => rfl⟩, ?_, fun _ => rfl, fun h => absurd hc h⟩
    intro e he
    rw [Except.error.injEq] at he
    exact he.symm
  · rw [if_neg hc]
    refine ⟨⟨fun h => ?_, fun h => absurd h hc⟩, ?_, fun h => absurd h hc, fun _ => ?_⟩
    · exact Except.noConfusion h
    · intro e he
      exact Except.noConfusion he
    · refine ⟨kmeansLabels 9 k.toNat m, rfl, ?_⟩
      unfold kmeansLabels assign
      exact List.length_map m _

/-- Witness for C7 (amended): at `[[0]]` and K = 3 (more clusters than
the single distinct row) the call fails with `ValueError`. -/
theorem C7_classify_failure_witness :
    classify_data [[(0 : ℚ)]] 3 = Except.error PyErr.valueError :=
  (C7_classify_failure [[(0 : ℚ)]] 3).1.mpr (Or.inr (by decide))

/-- C8 counterexample. On a filesystem with no files, loading
"missing.tif" fails with the library's file-not-found error, re-raised
unchanged by the bare `raise` of line 27 — not with a `DataLoadError`,
a class the repository never defines. -/
theorem C8_counterexample :
    load_data emptyFS "missing.tif" = Except.error PyErr.fileNotFoundError ∧
    load_data emptyFS "missing.tif" ≠ Except.error PyErr.dataLoadError := by
  constructor
  · rfl
  · intro h
    rw [show load_data emptyFS "missing.tif"
        = Except.error PyErr.fileNotFoundError from rfl] at h
    rw [Except.error.injEq] at h
    exact PyErr.noConfusion h

/-- C8 (amended). On a nonexistent path, `load_data` raises the
underlying loader exception (file-not-found) unchanged — the code
defines no `DataLoadError` — after logging one ERROR line that carries
the path and the underlying cause; there is no retry and no recovery. -/
theorem C8_load_missing (fs : String → Option (Arr3 ℚ)) (path : String)
    (h : fs path = none) :
    load_data fs path = .error .fileNotFoundError ∧
    load_data fs path ≠ .error .dataLoadError ∧
    load_log fs path =
      ["ERROR Error loading data from " ++ path ++ ": "
        ++ errMsg PyErr.fileNotFoundError] := by
  unfold load_data load_log open_dataset
  rw [h]
  refine ⟨rfl, ?_, rfl⟩
  intro hbad
  rw [Except.error.injEq] at hbad
  exact PyErr.noConfusion hbad

/-- Witness for C8 (amended) on the empty filesystem at path
"missing.tif". -/
theorem C8_load_missing_witness :
    load_data emptyFS "missing.tif" = .error .fileNotFoundError ∧
    load_data emptyFS "missing.tif" ≠ .error .dataLoadError ∧
    load_log emptyFS "missing.tif" =
      ["ERROR Error loading data from " ++ "missing.tif" ++ ": "
        ++ errMsg PyErr.fileNotFoundError] :=
  C8_load_missing emptyFS "missing.tif" rfl

/-- C9. CLI surface: the repeatable `-v` count maps 0, 1, 2, 3 to the
ERROR, WARNING, INFO, DEBUG levels, and an omitted `--n_clusters`
defaults to 5 (while the positional path and the count are passed
through). -/
theorem C9_cli_surface :
    setup_logging 0 = some .error ∧
    setup_logging 1 = some .warning ∧
    setup_logging 2 = some .info ∧
    setup_logging 3 = some .debug ∧
    (∀ p vcount, (parse_args p none vcount).n_clusters = 5 ∧
      (parse_args p none vcount).viirs_file = p ∧
      (parse_args p none vcount).v = vcount) :=
  ⟨rfl, rfl, rfl, rfl, fun _ _ => ⟨rfl, rfl, rfl⟩⟩

/-- C10. For every verbosity count above 3 the level dictionary has no
entry, so `setup_logging` aborts with a `KeyError`, and the whole run
fails with that `KeyError` before any pipeline stage executes — for
any filesystem, path and cluster count. -/
theorem C10_verbosity_overflow (c : Nat) (hc : 3 < c) :
    setup_logging c = none ∧
    ∀ fs path nc, main_model fs path nc c = .error .keyError := by
  obtain ⟨n, rfl⟩ : ∃ n, c = n + 4 := ⟨c - 4, by omega⟩
  exact ⟨rfl, fun fs path nc => rfl⟩

/-- Witness for C10 at count 4 (`-vvvv`): the run aborts with a
`KeyError` even on the empty filesystem. -/
theorem C10_verbosity_overflow_witness :
    setup_logging 4 = none ∧
    main_model emptyFS "f.tif" none 4 = .error .keyError :=
  ⟨(C10_verbosity_overflow 4 (by decide)).1,
   (C10_verbosity_overflow 4 (by decide)).2 emptyFS "f.tif" none⟩
